import Mathlib

/-!
Shallow embedding of `src/scripts/reindex.ts`, a sequential reindexing
script: it resolves configuration from environment variables, loads a list
of seed documents, optionally deletes each document by id (`--clean`), then
indexes every document via HTTP POST, tallying successes and failures.

The network is modelled by an oracle `Nat → Response` giving the response to
the n-th HTTP request issued (requests are strictly sequential, awaited one
at a time). Console output is modelled as a list of structured `LogEvent`s,
one per `console.log` / `console.error` line the script emits per document.
-/

namespace Reindex

/-- A seed document: `interface SeedDocument { id, text, metadata? }`.
Metadata is an association list standing for the string-to-string map. -/
structure SeedDocument where
  id : String
  text : String
  metadata : List (String × String) := []
deriving Repr, DecidableEq

/-- An HTTP response as the script consumes it: `res.status` and the body
text read by `await res.text()`. -/
structure Response where
  status : Nat
  body : String
deriving Repr, DecidableEq

/-- `res.ok` of the fetch API: status in the inclusive range 200–299. -/
def Response.ok (r : Response) : Bool :=
  decide (200 ≤ r.status) && decide (r.status ≤ 299)

/-- One console line emitted per document operation, with the interpolated
values of the corresponding template literal in the script. -/
inductive LogEvent where
  | deleted (id : String)
  | notFoundSkip (id : String)
  | deleteFailed (id : String) (status : Nat) (body : String)
  | indexed (id : String)
  | indexFailed (id : String) (status : Nat) (body : String)
deriving Repr, DecidableEq

/-- An HTTP request the script issues: `DELETE url` or `POST url` with the
JSON-serialised document as body. -/
inductive Request where
  | deleteReq (url : String)
  | postReq (url : String) (body : SeedDocument)
deriving Repr, DecidableEq

/-- Whether a request is a delete request. -/
def Request.isDelete : Request → Bool
  | .deleteReq _ => true
  | .postReq _ _ => false

/-- Whether a request is an index (POST) request. -/
def Request.isPost : Request → Bool
  | .deleteReq _ => false
  | .postReq _ _ => true

/-- Characters `encodeURIComponent` leaves unescaped (ECMA-262):
`A`–`Z`, `a`–`z`, `0`–`9`, and `- _ . ! ~ *` , the apostrophe (code 39),
and the two parentheses. -/
def isUnreservedURI (c : Char) : Bool :=
  (48 ≤ c.toNat && c.toNat ≤ 57) ||
  (65 ≤ c.toNat && c.toNat ≤ 90) ||
  (97 ≤ c.toNat && c.toNat ≤ 122) ||
  c.toNat == 45 || c.toNat == 95 || c.toNat == 46 || c.toNat == 33 ||
  c.toNat == 126 || c.toNat == 42 || c.toNat == 39 || c.toNat == 40 ||
  c.toNat == 41

/-- Uppercase hexadecimal digit character for a value below 16. -/
def hexDigitChar : Nat → Char
  | 0 => '0' | 1 => '1' | 2 => '2' | 3 => '3' | 4 => '4'
  | 5 => '5' | 6 => '6' | 7 => '7' | 8 => '8' | 9 => '9'
  | 10 => 'A' | 11 => 'B' | 12 => 'C' | 13 => 'D' | 14 => 'E'
  | _ => 'F'

/-- UTF-8 byte sequence of a character, as natural numbers below 256. -/
def utf8Bytes (c : Char) : List Nat :=
  if c.toNat < 128 then [c.toNat]
  else if c.toNat < 2048 then
    [192 + c.toNat / 64, 128 + c.toNat % 64]
  else if c.toNat < 65536 then
    [224 + c.toNat / 4096, 128 + c.toNat / 64 % 64, 128 + c.toNat % 64]
  else
    [240 + c.toNat / 262144, 128 + c.toNat / 4096 % 64,
     128 + c.toNat / 64 % 64, 128 + c.toNat % 64]

/-- Percent-escape of one byte: `%` followed by two uppercase hex digits. -/
def percentEncodeByte (b : Nat) : List Char :=
  ['%', hexDigitChar (b / 16), hexDigitChar (b % 16)]

/-- Model of the ECMAScript builtin `encodeURIComponent`: unreserved
characters are kept, every other character is replaced by the
percent-escapes of its UTF-8 bytes. -/
def encodeURIComponent (s : String) : String :=
  String.mk (s.data.flatMap fun c =>
    if isUnreservedURI c then [c] else (utf8Bytes c).flatMap percentEncodeByte)

/-- The environment variables the script reads via `process.env`. `none` is
an unset variable (`undefined`); `some s` is a variable set to `s`, which
may be the empty string. -/
structure Env where
  API_URL : Option String
  API_KEY : Option String
  API_KEY_WRITER : Option String
deriving Repr, DecidableEq

/-- JavaScript truthiness of a `string | undefined` value: `undefined` and
the empty string are falsy, every other string is truthy. -/
def jsTruthy : Option String → Bool
  | none => false
  | some s => !(s == "")

/-- JavaScript `a || b` on `string | undefined` values: yields `a` when `a`
is truthy, otherwise `b`. -/
def jsOr (a b : Option String) : Option String :=
  if jsTruthy a then a else b

/-- Resolved configuration after the startup checks pass. -/
structure Config where
  apiUrl : String
  apiKey : String
deriving Repr, DecidableEq

/-- Which fatal startup check fired (each prints its error text and calls
`process.exit(1)`). -/
inductive ConfigError where
  | missingApiUrl
  | missingApiKey
deriving Repr, DecidableEq

/-- The script's startup configuration resolution:
`API_URL = process.env.API_URL`,
`API_KEY = process.env.API_KEY || process.env.API_KEY_WRITER`,
then `if (!API_URL) exit(1)` and `if (!API_KEY) exit(1)` in that order. -/
def resolveConfig (e : Env) : Except ConfigError Config :=
  if !jsTruthy e.API_URL then .error .missingApiUrl
  else if !jsTruthy (jsOr e.API_KEY e.API_KEY_WRITER) then .error .missingApiKey
  else .ok ⟨(e.API_URL).getD "", (jsOr e.API_KEY e.API_KEY_WRITER).getD ""⟩

/-- The URL `deleteDocument` builds:
`API_URL/v1/documents/encodeURIComponent(id)`. -/
def deleteUrl (apiUrl id : String) : String :=
  apiUrl ++ "/v1/documents/" ++ encodeURIComponent id

/-- The URL `indexDocument` posts to: `API_URL/v1/documents`. -/
def indexUrl (apiUrl : String) : String :=
  apiUrl ++ "/v1/documents"

/-- `deleteDocument`, given the response to its DELETE request: `res.ok`
logs success and returns true; otherwise a 404 status logs a skip and still
returns true; any other status logs the failure with the response body and
returns false. -/
def deleteDocument (id : String) (res : Response) : Bool × LogEvent :=
  if res.ok then (true, .deleted id)
  else if res.status = 404 then (true, .notFoundSkip id)
  else (false, .deleteFailed id res.status res.body)

/-- `indexDocument`, given the response to its POST request: `res.ok` logs
success and returns true; any other status logs the failure with the
response body and returns false. -/
def indexDocument (doc : SeedDocument) (res : Response) : Bool × LogEvent :=
  if res.ok then (true, .indexed doc.id)
  else (false, .indexFailed doc.id res.status res.body)

/-- The `--clean` delete loop of `main`: for each document in order it
issues one DELETE request and logs the outcome. The boolean that
`deleteDocument` returns is discarded, exactly as the script's
`await deleteDocument(doc.id)` discards it. `k` is the number of requests
issued so far (index into the oracle). Returns the requests issued and the
log lines, in order. -/
def processDeletes (apiUrl : String) (docs : List SeedDocument)
    (o : Nat → Response) (k : Nat) : List Request × List LogEvent :=
  match docs with
  | [] => ([], [])
  | d :: rest =>
      (Request.deleteReq (deleteUrl apiUrl d.id) ::
         (processDeletes apiUrl rest o (k + 1)).1,
       (deleteDocument d.id (o k)).2 :: (processDeletes apiUrl rest o (k + 1)).2)

/-- The index loop of `main`: for each document in order it issues one POST
request, logs the outcome, and increments `success` on a true result and
`failed` on a false one. Returns the requests, the log lines, and the pair
of counters `(success, failed)`. -/
def processIndex (apiUrl : String) (docs : List SeedDocument)
    (o : Nat → Response) (k : Nat) :
    List Request × List LogEvent × Nat × Nat :=
  match docs with
  | [] => ([], [], 0, 0)
  | d :: rest =>
      (Request.postReq (indexUrl apiUrl) d :: (processIndex apiUrl rest o (k + 1)).1,
       (indexDocument d (o k)).2 :: (processIndex apiUrl rest o (k + 1)).2.1,
       (if (indexDocument d (o k)).1
        then (processIndex apiUrl rest o (k + 1)).2.2.1 + 1
        else (processIndex apiUrl rest o (k + 1)).2.2.1),
       (if (indexDocument d (o k)).1
        then (processIndex apiUrl rest o (k + 1)).2.2.2
        else (processIndex apiUrl rest o (k + 1)).2.2.2 + 1))

/-- Observable outcome of a completed run of `main`: the HTTP requests
issued in order, the per-document log lines in order, the final counters of
the summary line, and the process exit code. -/
structure RunResult where
  requests : List Request
  log : List LogEvent
  success : Nat
  failed : Nat
  exitCode : Nat
deriving Repr, DecidableEq

/-- The body of `main` after the seed file is loaded: the optional delete
pass over all documents, then the index pass accumulating `success` and
`failed`; `process.exit(1)` when `failed > 0`, otherwise a normal exit
(code 0). -/
def main (cfg : Config) (documents : List SeedDocument) (shouldClean : Bool)
    (o : Nat → Response) : RunResult :=
  let del : List Request × List LogEvent :=
    if shouldClean then processDeletes cfg.apiUrl documents o 0 else ([], [])
  let idx := processIndex cfg.apiUrl documents o del.1.length
  { requests := del.1 ++ idx.1
    log := del.2 ++ idx.2.1
    success := idx.2.2.1
    failed := idx.2.2.2
    exitCode := if idx.2.2.2 > 0 then 1 else 0 }

/-- `const shouldClean = args.includes(--clean)` over
`process.argv.slice(2)`. -/
def shouldCleanFlag (args : List String) : Bool :=
  args.contains "--clean"

/-- Whole-program outcome: either a fatal configuration error at startup
(exit code 1, before any request) or a completed run. -/
inductive ProgramOutcome where
  | fatalConfig (err : ConfigError)
  | run (result : RunResult)
deriving Repr, DecidableEq

/-- The whole script: resolve configuration, then run `main` with the
`--clean` flag parsed from the arguments. -/
def runProgram (env : Env) (args : List String) (documents : List SeedDocument)
    (o : Nat → Response) : ProgramOutcome :=
  match resolveConfig env with
  | .error e => .fatalConfig e
  | .ok cfg => .run (main cfg documents (shouldCleanFlag args) o)

/-- Requests issued over the whole program: none when startup aborts. -/
def ProgramOutcome.requestsIssued : ProgramOutcome → List Request
  | .fatalConfig _ => []
  | .run r => r.requests

/-- Process exit code of the whole program: 1 on a fatal configuration
error, otherwise the run's exit code. -/
def ProgramOutcome.exitStatus : ProgramOutcome → Nat
  | .fatalConfig _ => 1
  | .run r => r.exitCode

/-- A character that cannot break a URL path segment: not `/` (47), not
`?` (63), not `#` (35), not the space (32). -/
def segmentSafe (c : Char) : Prop :=
  c.toNat ≠ 47 ∧ c.toNat ≠ 63 ∧ c.toNat ≠ 35 ∧ c.toNat ≠ 32

instance (c : Char) : Decidable (segmentSafe c) := by
  unfold segmentSafe; infer_instance

/-- Example resolved configuration used to instantiate the theorems. -/
def cfgW : Config :=
  { apiUrl := "http://localhost:8787", apiKey := "writer-key" }

/-- Example seed document. -/
def docA : SeedDocument :=
  { id := "doc-a", text := "alpha text", metadata := [] }

/-- Second example seed document. -/
def docB : SeedDocument :=
  { id := "doc-b", text := "beta text", metadata := [] }

/-- Oracle answering 200 to every request. -/
def oracleOk : Nat → Response := fun _ => { status := 200, body := "created" }

/-- Oracle failing the second request (index of `docB` in a two-document
run without `--clean`) with a 500. -/
def oracleFailSecond : Nat → Response := fun n =>
  if n = 1 then { status := 500, body := "server error" } else { status := 200, body := "" }

/-- Oracle failing the first request with a 500 and answering 200 to every
later request: in a one-document `--clean` run, the delete fails and the
index succeeds. -/
def oracleDeleteFails : Nat → Response := fun n =>
  if n = 0 then { status := 500, body := "boom" } else { status := 200, body := "" }

/-- Environment with a URL but neither key variable set. -/
def envMissingKey : Env :=
  { API_URL := some "http://localhost:8787", API_KEY := none, API_KEY_WRITER := none }

/-- Environment with a URL, the primary key set to the empty string, and
the fallback unset. -/
def envEmptyKey : Env :=
  { API_URL := some "http://localhost:8787", API_KEY := some "", API_KEY_WRITER := none }

/-- Environment with a URL, the primary key set to the empty string, and
the fallback set. -/
def envEmptyKeyWriter : Env :=
  { API_URL := some "http://localhost:8787", API_KEY := some "",
    API_KEY_WRITER := some "writer-key" }

/-! Helper lemmas about the two request loops. -/

theorem indexDocument_fst (d : SeedDocument) (res : Response) :
    (indexDocument d res).1 = res.ok := by
  by_cases h : res.ok = true <;> simp [indexDocument, h]

theorem processDeletes_requests (u : String) (docs : List SeedDocument)
    (o : Nat → Response) (k : Nat) :
    (processDeletes u docs o k).1 =
      docs.map (fun d => Request.deleteReq (deleteUrl u d.id)) := by
  induction docs generalizing k with
  | nil => simp [processDeletes]
  | cons d rest ih => simp [processDeletes, ih]

theorem processIndex_requests (u : String) (docs : List SeedDocument)
    (o : Nat → Response) (k : Nat) :
    (processIndex u docs o k).1 =
      docs.map (fun d => Request.postReq (indexUrl u) d) := by
  induction docs generalizing k with
  | nil => simp [processIndex]
  | cons d rest ih => simp [processIndex, ih]

theorem processIndex_counts (u : String) (docs : List SeedDocument)
    (o : Nat → Response) (k : Nat) :
    (processIndex u docs o k).2.2.1 + (processIndex u docs o k).2.2.2 =
      docs.length := by
  induction docs generalizing k with
  | nil => simp [processIndex]
  | cons d rest ih =>
      have h2 := ih (k + 1)
      by_cases h : (indexDocument d (o k)).1 = true <;>
        simp [processIndex, h] <;> omega

theorem processIndex_success_countP (u : String) (docs : List SeedDocument)
    (o : Nat → Response) (k : Nat) :
    (processIndex u docs o k).2.2.1 =
      (List.enumFrom k docs).countP (fun p => (o p.1).ok) := by
  induction docs generalizing k with
  | nil => simp [processIndex]
  | cons d rest ih =>
      have h2 := ih (k + 1)
      by_cases h : (o k).ok = true <;>
        simp [processIndex, List.enumFrom_cons, List.countP_cons,
          indexDocument_fst, h, h2]

theorem processIndex_failed_countP (u : String) (docs : List SeedDocument)
    (o : Nat → Response) (k : Nat) :
    (processIndex u docs o k).2.2.2 =
      (List.enumFrom k docs).countP (fun p => !(o p.1).ok) := by
  induction docs generalizing k with
  | nil => simp [processIndex]
  | cons d rest ih =>
      have h2 := ih (k + 1)
      by_cases h : (o k).ok = true <;>
        simp [processIndex, List.enumFrom_cons, List.countP_cons,
          indexDocument_fst, h, h2]

theorem processIndex_failed_zero (u : String) (docs : List SeedDocument)
    (o : Nat → Response) (k : Nat)
    (h : ∀ i, i < docs.length → (o (k + i)).ok = true) :
    (processIndex u docs o k).2.2.2 = 0 := by
  induction docs generalizing k with
  | nil => simp [processIndex]
  | cons d rest ih =>
      have h0 : (o k).ok = true := by
        have := h 0 (by simp)
        simpa using this
      have ht : (processIndex u rest o (k + 1)).2.2.2 = 0 := by
        apply ih
        intro i hi
        have hlt : i + 1 < (d :: rest).length := by simpa using Nat.succ_lt_succ hi
        have := h (i + 1) hlt
        have e : k + (i + 1) = k + 1 + i := by omega
        rw [e] at this
        exact this
      simp [processIndex, indexDocument_fst, h0, ht]

theorem processIndex_fail_mem (u : String) (docs : List SeedDocument)
    (o : Nat → Response) (k i : Nat) (hi : i < docs.length)
    (hf : (o (k + i)).ok = false) :
    LogEvent.indexFailed (docs.get ⟨i, hi⟩).id (o (k + i)).status (o (k + i)).body
        ∈ (processIndex u docs o k).2.1 ∧
      0 < (processIndex u docs o k).2.2.2 := by
  induction docs generalizing k i with
  | nil => simp at hi
  | cons d rest ih =>
      cases i with
      | zero =>
          simp only [Nat.add_zero] at hf ⊢
          constructor
          · simp [processIndex, indexDocument, hf]
          · simp [processIndex, indexDocument_fst, hf]
      | succ j =>
          have hj : j < rest.length := by simpa using Nat.lt_of_succ_lt_succ hi
          have e : k + (j + 1) = k + 1 + j := by omega
          rw [e] at hf ⊢
          have htail := ih (k + 1) j hj hf
          constructor
          · simp only [List.get_cons_succ]
            simp [processIndex]
            right
            exact htail.1
          · by_cases h : (indexDocument d (o k)).1 = true
            · simpa [processIndex, h] using htail.2
            · simp [processIndex, h]

/-! Helper lemmas about `main`. -/

theorem main_failed (cfg : Config) (docs : List SeedDocument) (sc : Bool)
    (o : Nat → Response) :
    (main cfg docs sc o).failed =
      (processIndex cfg.apiUrl docs o (if sc then docs.length else 0)).2.2.2 := by
  cases sc <;> simp [main, processDeletes_requests]

theorem main_success (cfg : Config) (docs : List SeedDocument) (sc : Bool)
    (o : Nat → Response) :
    (main cfg docs sc o).success =
      (processIndex cfg.apiUrl docs o (if sc then docs.length else 0)).2.2.1 := by
  cases sc <;> simp [main, processDeletes_requests]

theorem main_exitCode (cfg : Config) (docs : List SeedDocument) (sc : Bool)
    (o : Nat → Response) :
    (main cfg docs sc o).exitCode =
      if (main cfg docs sc o).failed > 0 then 1 else 0 := by
  cases sc <;> simp [main]

theorem main_log (cfg : Config) (docs : List SeedDocument) (sc : Bool)
    (o : Nat → Response) :
    (main cfg docs sc o).log =
      (if sc then (processDeletes cfg.apiUrl docs o 0).2 else []) ++
        (processIndex cfg.apiUrl docs o (if sc then docs.length else 0)).2.1 := by
  cases sc <;> simp [main, processDeletes_requests]

theorem main_requests (cfg : Config) (docs : List SeedDocument) (sc : Bool)
    (o : Nat → Response) :
    (main cfg docs sc o).requests =
      (if sc then docs.map (fun d => Request.deleteReq (deleteUrl cfg.apiUrl d.id))
       else []) ++
        docs.map (fun d => Request.postReq (indexUrl cfg.apiUrl) d) := by
  cases sc <;> simp [main, processDeletes_requests, processIndex_requests]

/-! Helper lemmas about percent-encoding. -/

theorem utf8Bytes_lt_256 (c : Char) : ∀ b ∈ utf8Bytes c, b < 256 := by
  intro b hb
  have hc : c.toNat < 1114112 := by
    have h := c.valid
    simp only [UInt32.isValidChar, Nat.isValidChar] at h
    show c.val.toNat < 1114112
    omega
  unfold utf8Bytes at hb
  split_ifs at hb with h1 h2 h3 <;> simp at hb <;> omega

theorem hexDigitChar_segmentSafe : ∀ m : Fin 16, segmentSafe (hexDigitChar m.val) := by
  decide

theorem percentEncodeByte_safe (b : Nat) (hb : b < 256) :
    ∀ c ∈ percentEncodeByte b, segmentSafe c := by
  intro c hc
  simp [percentEncodeByte] at hc
  rcases hc with h | h | h
  · subst h; decide
  · subst h; exact hexDigitChar_segmentSafe ⟨b / 16, by omega⟩
  · subst h; exact hexDigitChar_segmentSafe ⟨b % 16, by omega⟩

theorem unreserved_segmentSafe (c : Char) (h : isUnreservedURI c = true) :
    segmentSafe c := by
  unfold isUnreservedURI at h
  simp only [Bool.or_eq_true, Bool.and_eq_true, decide_eq_true_eq,
    beq_iff_eq] at h
  unfold segmentSafe
  omega

/-! Claim theorems. -/

/-- Claim C1: in every run, if the index call for the document at position `i`
returns a non-success HTTP status, the process exit code is 1 and that
document's id appears (with the failing status and body) in the failure
log output. The index call for position `i` is request number
`(if shouldClean then docs.length else 0) + i`. -/
theorem C1_index_failure_exit_one_and_logged (cfg : Config)
    (docs : List SeedDocument) (shouldClean : Bool) (o : Nat → Response)
    (i : Nat) (hi : i < docs.length)
    (hfail : (o ((if shouldClean then docs.length else 0) + i)).ok = false) :
    (main cfg docs shouldClean o).exitCode = 1 ∧
      LogEvent.indexFailed (docs.get ⟨i, hi⟩).id
          (o ((if shouldClean then docs.length else 0) + i)).status
          (o ((if shouldClean then docs.length else 0) + i)).body
        ∈ (main cfg docs shouldClean o).log := by
  have h := processIndex_fail_mem cfg.apiUrl docs o
    (if shouldClean then docs.length else 0) i hi hfail
  constructor
  · rw [main_exitCode, main_failed]
    simp [h.2]
  · rw [main_log]
    exact List.mem_append_right _ h.1

/-- Witness for C1 at a concrete run: two documents, no clean pass, the
second index request answered 500. -/
theorem C1_witness :
    (main cfgW [docA, docB] false oracleFailSecond).exitCode = 1 ∧
      LogEvent.indexFailed (([docA, docB].get ⟨1, by decide⟩ : SeedDocument)).id
          (oracleFailSecond ((if false then ([docA, docB] : List SeedDocument).length else 0) + 1)).status
          (oracleFailSecond ((if false then ([docA, docB] : List SeedDocument).length else 0) + 1)).body
        ∈ (main cfgW [docA, docB] false oracleFailSecond).log :=
  C1_index_failure_exit_one_and_logged cfgW [docA, docB] false oracleFailSecond
    1 (by decide) (by decide)

/-- Claim C2: a run invoked without the `--clean` flag issues exactly one index
(POST) request per loaded document and zero delete requests. -/
theorem C2_no_clean_counts (cfg : Config) (docs : List SeedDocument)
    (args : List String) (o : Nat → Response)
    (h : shouldCleanFlag args = false) :
    (main cfg docs (shouldCleanFlag args) o).requests.countP Request.isPost =
        docs.length ∧
      (main cfg docs (shouldCleanFlag args) o).requests.countP Request.isDelete =
        0 := by
  rw [h]
  rw [main_requests]
  constructor <;>
    simp [List.countP_append, List.countP_map, Function.comp_def,
      Request.isPost, Request.isDelete]

/-- Witness for C2: a concrete two-document run with empty argument list. -/
theorem C2_witness :
    (main cfgW [docA, docB] (shouldCleanFlag []) oracleOk).requests.countP
        Request.isPost = ([docA, docB] : List SeedDocument).length ∧
      (main cfgW [docA, docB] (shouldCleanFlag []) oracleOk).requests.countP
        Request.isDelete = 0 :=
  C2_no_clean_counts cfgW [docA, docB] [] oracleOk rfl

/-- Claim C3: a run invoked with the `--clean` flag issues exactly one delete
request per loaded document, and every delete request is issued before any
index request (its position in the request sequence is strictly smaller). -/
theorem C3_clean_deletes_first (cfg : Config) (docs : List SeedDocument)
    (args : List String) (o : Nat → Response)
    (h : shouldCleanFlag args = true) :
    (main cfg docs (shouldCleanFlag args) o).requests.countP Request.isDelete =
        docs.length ∧
      ∀ i j (hi : i < (main cfg docs (shouldCleanFlag args) o).requests.length)
        (hj : j < (main cfg docs (shouldCleanFlag args) o).requests.length),
        ((main cfg docs (shouldCleanFlag args) o).requests.get ⟨i, hi⟩).isDelete =
            true →
          ((main cfg docs (shouldCleanFlag args) o).requests.get ⟨j, hj⟩).isPost =
            true →
          i < j := by
  rw [h]
  have hreq := main_requests cfg docs true o
  rw [if_pos rfl] at hreq
  constructor
  · rw [hreq]
    simp [List.countP_append, List.countP_map, Function.comp_def,
      Request.isPost, Request.isDelete]
  · intro i j hi hj hdel hpost
    have hlen : (main cfg docs true o).requests.length = docs.length + docs.length := by
      rw [hreq]; simp
    have hiN : i < docs.length := by
      by_contra hni
      push_neg at hni
      rw [List.get_eq_getElem] at hdel
      have hb1 : i - docs.length <
          (docs.map (fun d => Request.postReq (indexUrl cfg.apiUrl) d)).length := by
        rw [List.length_map]
        rw [hlen] at hi
        omega
      have hmap : (main cfg docs true o).requests[i] =
          (docs.map (fun d => Request.postReq (indexUrl cfg.apiUrl) d))[i - docs.length] := by
        simp only [hreq]
        rw [List.getElem_append_right (by simpa using hni)]
        simp
      rw [hmap, List.getElem_map] at hdel
      simp [Request.isDelete] at hdel
    have hjN : docs.length ≤ j := by
      by_contra hnj
      push_neg at hnj
      rw [List.get_eq_getElem] at hpost
      have hb2 : j <
          (docs.map (fun d => Request.deleteReq (deleteUrl cfg.apiUrl d.id))).length := by
        rw [List.length_map]
        exact hnj
      have hmap : (main cfg docs true o).requests[j] =
          (docs.map (fun d => Request.deleteReq (deleteUrl cfg.apiUrl d.id)))[j] := by
        simp only [hreq]
        rw [List.getElem_append_left (by simpa using hnj)]
      rw [hmap, List.getElem_map] at hpost
      simp [Request.isPost] at hpost
    omega

/-- Witness for C3: a concrete two-document run invoked with `--clean`. -/
theorem C3_witness :
    (main cfgW [docA, docB] (shouldCleanFlag ["--clean"]) oracleOk).requests.countP
        Request.isDelete = ([docA, docB] : List SeedDocument).length ∧
      ∀ i j (hi : i < (main cfgW [docA, docB] (shouldCleanFlag ["--clean"]) oracleOk).requests.length)
        (hj : j < (main cfgW [docA, docB] (shouldCleanFlag ["--clean"]) oracleOk).requests.length),
        ((main cfgW [docA, docB] (shouldCleanFlag ["--clean"]) oracleOk).requests.get
            ⟨i, hi⟩).isDelete = true →
          ((main cfgW [docA, docB] (shouldCleanFlag ["--clean"]) oracleOk).requests.get
            ⟨j, hj⟩).isPost = true →
          i < j :=
  C3_clean_deletes_first cfgW [docA, docB] ["--clean"] oracleOk (by decide)

/-- Claim C4: a delete response that is an HTTP success, or whose status is 404,
makes `deleteDocument` return true (success); any other status makes it
return false and log the failure with the response status and body. -/
theorem C4_delete_not_found_is_success (id : String) (res : Response) :
    ((res.ok = true ∨ res.status = 404) → (deleteDocument id res).1 = true) ∧
      (res.ok = false → res.status ≠ 404 →
        deleteDocument id res =
          (false, LogEvent.deleteFailed id res.status res.body)) := by
  constructor
  · rintro (h | h)
    · simp [deleteDocument, h]
    · by_cases hk : res.ok = true <;> simp [deleteDocument, h, hk]
  · intro h1 h2
    simp [deleteDocument, h1, h2]

/-- Witness for C4: a 404 delete response on a concrete id is a success. -/
theorem C4_witness :
    (deleteDocument "doc-a" { status := 404, body := "not found" }).1 = true :=
  (C4_delete_not_found_is_success "doc-a" { status := 404, body := "not found" }).1
    (Or.inr rfl)

/-- Claim C5: in every run where each index call succeeds, the exit code is 0 and
the final summary reports 0 failed. -/
theorem C5_all_success_exit_zero (cfg : Config) (docs : List SeedDocument)
    (shouldClean : Bool) (o : Nat → Response)
    (h : ∀ i, i < docs.length →
      (o ((if shouldClean then docs.length else 0) + i)).ok = true) :
    (main cfg docs shouldClean o).exitCode = 0 ∧
      (main cfg docs shouldClean o).failed = 0 := by
  have hf : (main cfg docs shouldClean o).failed = 0 := by
    rw [main_failed]
    exact processIndex_failed_zero _ _ _ _ h
  exact ⟨by rw [main_exitCode]; simp [hf], hf⟩

/-- Witness for C5: a concrete clean run where every request succeeds. -/
theorem C5_witness :
    (main cfgW [docA, docB] true oracleOk).exitCode = 0 ∧
      (main cfgW [docA, docB] true oracleOk).failed = 0 :=
  C5_all_success_exit_zero cfgW [docA, docB] true oracleOk (fun _ _ => rfl)

/-- Claim C6: when the base API URL is unset, or both key variables are unset,
the program ends in a fatal configuration error: exit status 1 and no
request issued. -/
theorem C6_missing_config_fatal (env : Env) (args : List String)
    (docs : List SeedDocument) (o : Nat → Response)
    (h : env.API_URL = none ∨ (env.API_KEY = none ∧ env.API_KEY_WRITER = none)) :
    (∃ e, runProgram env args docs o = ProgramOutcome.fatalConfig e) ∧
      (runProgram env args docs o).exitStatus = 1 ∧
      (runProgram env args docs o).requestsIssued = [] := by
  have herr : ∃ e, resolveConfig env = Except.error e := by
    rcases h with h | ⟨h1, h2⟩
    · exact ⟨.missingApiUrl, by simp [resolveConfig, h, jsTruthy]⟩
    · by_cases hu : jsTruthy env.API_URL = true
      · have hkey : jsOr env.API_KEY env.API_KEY_WRITER = none := by
          simp [jsOr, h1, h2, jsTruthy]
        have hnone : jsTruthy (none : Option String) = false := rfl
        exact ⟨.missingApiKey, by simp [resolveConfig, hu, hkey, hnone]⟩
      · exact ⟨.missingApiUrl, by simp [resolveConfig, hu]⟩
  obtain ⟨e, he⟩ := herr
  refine ⟨⟨e, ?_⟩, ?_, ?_⟩ <;>
    simp [runProgram, he, ProgramOutcome.exitStatus, ProgramOutcome.requestsIssued]

/-- Witness for C6: concrete environment with both key variables unset. -/
theorem C6_witness :
    (∃ e, runProgram envMissingKey [] [] oracleOk = ProgramOutcome.fatalConfig e) ∧
      (runProgram envMissingKey [] [] oracleOk).exitStatus = 1 ∧
      (runProgram envMissingKey [] [] oracleOk).requestsIssued = [] :=
  C6_missing_config_fatal envMissingKey [] [] oracleOk (Or.inr ⟨rfl, rfl⟩)

/-- Claim C7 counterexample: in a `--clean` run over one document where the
delete request fails (500) and the index request succeeds, both operations
are invoked (2 requests) and the delete outcome is false, yet the final
counters are success 1, failed 0 and the exit code is 0: the accumulated
counts do not reflect the delete operation's outcome. -/
theorem C7_counterexample :
    (deleteDocument docA.id (oracleDeleteFails 0)).1 = false ∧
      (main cfgW [docA] true oracleDeleteFails).requests.length = 2 ∧
      (main cfgW [docA] true oracleDeleteFails).success = 1 ∧
      (main cfgW [docA] true oracleDeleteFails).failed = 0 ∧
      (main cfgW [docA] true oracleDeleteFails).exitCode = 0 := by
  refine ⟨rfl, rfl, rfl, rfl, rfl⟩

/-- Claim C7 (amended): in a `--clean` run the driver invokes one delete and one
index request per document (no short-circuit), but the success/failure
counters are computed from the index outcomes alone: `success` counts the
index responses that are HTTP successes and `failed` the ones that are not;
delete outcomes are discarded. -/
theorem C7_amended_counts_index_only (cfg : Config) (docs : List SeedDocument)
    (args : List String) (o : Nat → Response)
    (h : shouldCleanFlag args = true) :
    (main cfg docs (shouldCleanFlag args) o).requests.length = 2 * docs.length ∧
      (main cfg docs (shouldCleanFlag args) o).success =
        (List.enumFrom docs.length docs).countP (fun p => (o p.1).ok) ∧
      (main cfg docs (shouldCleanFlag args) o).failed =
        (List.enumFrom docs.length docs).countP (fun p => !(o p.1).ok) := by
  rw [h]
  refine ⟨?_, ?_, ?_⟩
  · rw [main_requests]
    simp
    omega
  · rw [main_success, if_pos rfl]
    exact processIndex_success_countP _ _ _ _
  · rw [main_failed, if_pos rfl]
    exact processIndex_failed_countP _ _ _ _

/-- Witness for the amended C7: the concrete one-document clean run where
the delete fails and the index succeeds. -/
theorem C7_amended_witness :
    (main cfgW [docA] (shouldCleanFlag ["--clean"]) oracleDeleteFails).requests.length =
        2 * ([docA] : List SeedDocument).length ∧
      (main cfgW [docA] (shouldCleanFlag ["--clean"]) oracleDeleteFails).success =
        (List.enumFrom ([docA] : List SeedDocument).length [docA]).countP
          (fun p => (oracleDeleteFails p.1).ok) ∧
      (main cfgW [docA] (shouldCleanFlag ["--clean"]) oracleDeleteFails).failed =
        (List.enumFrom ([docA] : List SeedDocument).length [docA]).countP
          (fun p => !(oracleDeleteFails p.1).ok) :=
  C7_amended_counts_index_only cfgW [docA] ["--clean"] oracleDeleteFails (by decide)

/-- Claim C8 counterexample: with the primary key variable set to the empty
string (present, not absent) and the fallback unset, the missing-key fatal
error is still raised; and with the fallback also set, the key silently
falls back even though the primary is present. The claim's "only when both
are absent" therefore fails on the code, which tests JavaScript truthiness
rather than presence. -/
theorem C8_counterexample :
    envEmptyKey.API_KEY = some "" ∧
      envEmptyKey.API_KEY ≠ none ∧
      resolveConfig envEmptyKey = Except.error ConfigError.missingApiKey ∧
      envEmptyKeyWriter.API_KEY ≠ none ∧
      resolveConfig envEmptyKeyWriter =
        Except.ok { apiUrl := "http://localhost:8787", apiKey := "writer-key" } := by
  refine ⟨rfl, by decide, rfl, by decide, rfl⟩

/-- Claim C8 (amended): the bearer key is taken from the primary variable exactly
when that variable is set to a non-empty string (JavaScript truthiness),
otherwise from the fallback variable; given a usable URL, the missing-key
fatal error is raised exactly when neither key variable is set to a
non-empty string. -/
theorem C8_amended_key_fallback (env : Env) :
    (jsTruthy env.API_KEY = true →
        jsOr env.API_KEY env.API_KEY_WRITER = env.API_KEY) ∧
      (jsTruthy env.API_KEY = false →
        jsOr env.API_KEY env.API_KEY_WRITER = env.API_KEY_WRITER) ∧
      (jsTruthy env.API_URL = true →
        (resolveConfig env = Except.error ConfigError.missingApiKey ↔
          jsTruthy env.API_KEY = false ∧ jsTruthy env.API_KEY_WRITER = false)) := by
  refine ⟨fun h => by simp [jsOr, h], fun h => by simp [jsOr, h], fun hu => ?_⟩
  constructor
  · intro he
    by_cases h1 : jsTruthy env.API_KEY = true
    · simp [resolveConfig, hu, jsOr, h1] at he
    · by_cases h2 : jsTruthy env.API_KEY_WRITER = true
      · simp [resolveConfig, hu, jsOr, h1, h2] at he
      · exact ⟨by simpa using h1, by simpa using h2⟩
  · rintro ⟨h1, h2⟩
    simp [resolveConfig, hu, jsOr, h1, h2]

/-- Witness for the amended C8: with the primary key empty and the
fallback set, the resolved key is the fallback value. -/
theorem C8_amended_witness :
    jsOr envEmptyKeyWriter.API_KEY envEmptyKeyWriter.API_KEY_WRITER =
      envEmptyKeyWriter.API_KEY_WRITER :=
  (C8_amended_key_fallback envEmptyKeyWriter).2.1 rfl

/-- Claim C9: in every run that reaches the final summary, the reported success
count plus the reported failure count equals the number of loaded
documents. -/
theorem C9_success_plus_failed_eq_total (cfg : Config)
    (docs : List SeedDocument) (shouldClean : Bool) (o : Nat → Response) :
    (main cfg docs shouldClean o).success + (main cfg docs shouldClean o).failed =
      docs.length := by
  rw [main_success, main_failed]
  exact processIndex_counts _ _ _ _

/-- Claim C10: the delete request URL embeds the document id through
`encodeURIComponent`, and every character of the encoded id is safe for a
single path segment: never `/`, `?`, `#`, or a space. -/
theorem C10_delete_url_single_segment (apiUrl id : String) :
    deleteUrl apiUrl id = apiUrl ++ "/v1/documents/" ++ encodeURIComponent id ∧
      ∀ c ∈ (encodeURIComponent id).data, segmentSafe c := by
  refine ⟨rfl, ?_⟩
  intro c hc
  have hdata : (encodeURIComponent id).data = id.data.flatMap fun ch =>
      if isUnreservedURI ch then [ch]
      else (utf8Bytes ch).flatMap percentEncodeByte := rfl
  rw [hdata, List.mem_flatMap] at hc
  obtain ⟨a, _, hca⟩ := hc
  by_cases h : isUnreservedURI a = true
  · rw [if_pos h] at hca
    simp at hca
    subst hca
    exact unreserved_segmentSafe _ h
  · rw [if_neg h, List.mem_flatMap] at hca
    obtain ⟨b, hb, hcb⟩ := hca
    exact percentEncodeByte_safe b (utf8Bytes_lt_256 a b hb) c hcb

/-- Witness for C10: a concrete id containing a slash; the first character
of its encoding is concrete and segment-safe. -/
theorem C10_witness :
    deleteUrl "http://localhost:8787" "a/b" =
        "http://localhost:8787" ++ "/v1/documents/" ++ encodeURIComponent "a/b" ∧
      segmentSafe ((String.mk ['a']).data.head (by simp)) :=
  ⟨(C10_delete_url_single_segment "http://localhost:8787" "a/b").1,
    (C10_delete_url_single_segment "http://localhost:8787" "a/b").2
      ((String.mk ['a']).data.head (by simp)) (by decide)⟩

end Reindex
